import Mathlib

/-!
Verification of the binatra-backend flood-monitoring core.

The definitions below are a shallow embedding of the JavaScript source:
JS numbers that carry sensor readings and threshold values are modelled
as rationals (`ℚ`), timestamps (millisecond epoch values produced by
`new Date()`) as integers (`ℤ`), and database tables as Lean lists in
insertion order.  Fallible operations (code paths that `throw`) return
`Except`; side-effecting socket emissions are collected in event lists.
-/

/-- Flood status enum from the Prisma schema
(`ENUM('AMAN','WASPADA','SIAGA','BAHAYA')`). -/
inductive FloodStatus
  | AMAN
  | WASPADA
  | SIAGA
  | BAHAYA
deriving DecidableEq, Repr

/-- Device connectivity enum from the Prisma schema
(`ENUM('CONNECTED','DISCONNECTED')`). -/
inductive DeviceStatus
  | CONNECTED
  | DISCONNECTED
deriving DecidableEq, Repr

/-- A row of the `locations` table, restricted to the columns the
monitoring core reads and writes.  `currentStatus` is NOT NULL with
default `AMAN`; `lastUpdate`, `currentWaterLevel` and `currentRainfall`
are nullable. -/
structure Location where
  id : Nat
  name : String
  isActive : Bool
  currentStatus : FloodStatus
  currentWaterLevel : Option ℚ
  currentRainfall : Option ℚ
  lastUpdate : Option ℤ
  amanMax : ℚ
  waspadaMin : ℚ
  waspadaMax : ℚ
  siagaMin : ℚ
  siagaMax : ℚ
  bahayaMin : ℚ
deriving DecidableEq, Repr

/-- `LocationService.calculateFloodStatus` from
`src/services/deviceMonitoring.service.js`: the threshold cascade,
first match wins, evaluated in the source order
BAHAYA, SIAGA, WASPADA, AMAN, fallback AMAN. -/
def calculateFloodStatus (waterLevel : ℚ) (location : Location) : FloodStatus :=
  if location.bahayaMin ≤ waterLevel then
    .BAHAYA
  else if location.siagaMin ≤ waterLevel ∧ waterLevel ≤ location.siagaMax then
    .SIAGA
  else if location.waspadaMin ≤ waterLevel ∧ waterLevel ≤ location.waspadaMax then
    .WASPADA
  else if waterLevel ≤ location.amanMax then
    .AMAN
  else
    .AMAN

/-- The classification cascade exactly as the claim words it:
BAHAYA if `w >= bahayaMin`; else SIAGA if `siagaMin <= w <= siagaMax`;
else WASPADA if `waspadaMin <= w <= waspadaMax`; else AMAN if
`w <= amanMax`; else AMAN as the undefined-gap fallback.  Written from
the specification text, to be compared with `calculateFloodStatus`. -/
def claimFloodCascade (w : ℚ) (location : Location) : FloodStatus :=
  if w ≥ location.bahayaMin then
    .BAHAYA
  else if location.siagaMin ≤ w ∧ w ≤ location.siagaMax then
    .SIAGA
  else if location.waspadaMin ≤ w ∧ w ≤ location.waspadaMax then
    .WASPADA
  else if w ≤ location.amanMax then
    .AMAN
  else
    .AMAN

/-- The data-model convention that the five threshold bands are ordered
and non-overlapping: AMAN band below WASPADA band below SIAGA band
below the unbounded BAHAYA band. -/
def ThresholdBandsOrdered (location : Location) : Prop :=
  location.amanMax < location.waspadaMin ∧
  location.waspadaMin ≤ location.waspadaMax ∧
  location.waspadaMax < location.siagaMin ∧
  location.siagaMin ≤ location.siagaMax ∧
  location.siagaMax < location.bahayaMin

instance (location : Location) : Decidable (ThresholdBandsOrdered location) := by
  unfold ThresholdBandsOrdered
  infer_instance

/-- C1: `calculateFloodStatus` returns the first matching case of the
claimed cascade (BAHAYA, then SIAGA, then WASPADA, then AMAN, then the
AMAN fallback); a water level exactly at `bahayaMin` yields BAHAYA, and
under the ordered-bands convention any water level strictly between
`amanMax` and `waspadaMin` yields AMAN. -/
theorem calculateFloodStatus_matches_claim (w : ℚ) (location : Location) :
    calculateFloodStatus w location = claimFloodCascade w location ∧
    calculateFloodStatus location.bahayaMin location = .BAHAYA ∧
    (ThresholdBandsOrdered location → location.amanMax < w → w < location.waspadaMin →
      calculateFloodStatus w location = .AMAN) := by
  refine ⟨?_, ?_, ?_⟩
  · unfold calculateFloodStatus claimFloodCascade
    rfl
  · unfold calculateFloodStatus
    simp
  · rintro ⟨h1, h2, h3, h4, h5⟩ hw1 hw2
    unfold calculateFloodStatus
    have hb : ¬ location.bahayaMin ≤ w := by linarith
    have hs : ¬ (location.siagaMin ≤ w ∧ w ≤ location.siagaMax) := by
      rintro ⟨hs1, _⟩; linarith
    have hwp : ¬ (location.waspadaMin ≤ w ∧ w ≤ location.waspadaMax) := by
      rintro ⟨hw, _⟩; linarith
    have ha : ¬ w ≤ location.amanMax := by linarith
    simp [hb, hs, hwp, ha]

/-- A sample location with the banded thresholds of Scenario A of the
specification, except that `waspadaMin` is 81 so that the gap
`(79, 81)` between the AMAN and WASPADA bands is non-empty. -/
def exLocGap : Location :=
  { id := 1, name := "Kali Mas", isActive := true,
    currentStatus := .AMAN, currentWaterLevel := none,
    currentRainfall := none, lastUpdate := none,
    amanMax := 79, waspadaMin := 81, waspadaMax := 149,
    siagaMin := 150, siagaMax := 199, bahayaMin := 200 }

theorem calculateFloodStatus_matches_claim_witness :
    calculateFloodStatus 80 exLocGap = claimFloodCascade 80 exLocGap ∧
    calculateFloodStatus exLocGap.bahayaMin exLocGap = .BAHAYA ∧
    calculateFloodStatus 80 exLocGap = .AMAN := by
  obtain ⟨h1, h2, h3⟩ := calculateFloodStatus_matches_claim 80 exLocGap
  exact ⟨h1, h2, h3 (by decide) (by norm_num [exLocGap]) (by norm_num [exLocGap])⟩

/-- A row of the `location_status_history` table as written by
`LocationRepository.createStatusHistory`. -/
structure HistoryRow where
  locationId : Nat
  previousStatus : FloodStatus
  newStatus : FloodStatus
  waterLevel : ℚ
  rainfall : ℚ
  duration : ℤ
  changedAt : ℤ
deriving DecidableEq, Repr

/-- `LocationRepository.updateCurrentStatus`: unconditionally overwrite
the location's snapshot columns and set `lastUpdate` to the write time
`tUpd` (the repository's `new Date()`). -/
def updateCurrentStatus (tUpd : ℤ) (location : Location)
    (currentStatus : FloodStatus) (currentWaterLevel currentRainfall : ℚ) : Location :=
  { location with
    currentStatus := currentStatus,
    currentWaterLevel := some currentWaterLevel,
    currentRainfall := some currentRainfall,
    lastUpdate := some tUpd }

/-- `LocationService.createStatusHistory`: re-fetches the location by id
(`locationRepository.findById`) and computes
`duration = Math.floor((new Date() - new Date(location.lastUpdate)) / 60000)`
(0 when `lastUpdate` is null), at the time `tHist` of its own
`new Date()` calls.  Because `processSensorData` calls it after
`updateCurrentStatus` has committed, the re-fetched row it receives here
is the post-update location. -/
def createStatusHistory (tHist : ℤ) (location : Location)
    (previousStatus newStatus : FloodStatus) (waterLevel rainfall : ℚ) : HistoryRow :=
  let duration : ℤ :=
    match location.lastUpdate with
    | some t => Int.fdiv (tHist - t) 60000
    | none => 0
  { locationId := location.id,
    previousStatus := previousStatus,
    newStatus := newStatus,
    waterLevel := waterLevel,
    rainfall := rainfall,
    duration := duration,
    changedAt := tHist }

/-- `LocationService.processSensorData`, after the owning location has
been resolved: classify the reading, read the pre-update
`currentStatus`, unconditionally overwrite the snapshot at time `tUpd`,
and - only when the status changed - append a history row computed at
time `tHist` from the re-fetched (hence already updated) location. -/
def processSensorDataLoc (tUpd tHist : ℤ) (location : Location)
    (waterLevel rainfall : ℚ) : Location × Option HistoryRow :=
  let newStatus := calculateFloodStatus waterLevel location
  let previousStatus := location.currentStatus
  let updated := updateCurrentStatus tUpd location newStatus waterLevel rainfall
  if previousStatus ≠ newStatus then
    (updated, some (createStatusHistory tHist updated previousStatus newStatus waterLevel rainfall))
  else
    (updated, none)

/-- The updated location returned by `processSensorData` is exactly the
snapshot-overwrite of the input location, in both branches. -/
theorem processSensorDataLoc_fst (tUpd tHist : ℤ) (location : Location) (w r : ℚ) :
    (processSensorDataLoc tUpd tHist location w r).1
      = updateCurrentStatus tUpd location (calculateFloodStatus w location) w r := by
  simp only [processSensorDataLoc]
  split <;> rfl

/-- The optional history row returned by `processSensorData`, as an
explicit conditional. -/
theorem processSensorDataLoc_snd (tUpd tHist : ℤ) (location : Location) (w r : ℚ) :
    (processSensorDataLoc tUpd tHist location w r).2
      = if location.currentStatus ≠ calculateFloodStatus w location then
          some (createStatusHistory tHist
            (updateCurrentStatus tUpd location (calculateFloodStatus w location) w r)
            location.currentStatus (calculateFloodStatus w location) w r)
        else none := by
  simp only [processSensorDataLoc]
  by_cases hc : location.currentStatus = calculateFloodStatus w location <;> simp [hc]

/-- Classification only reads the threshold columns, which the snapshot
update leaves untouched. -/
theorem calculateFloodStatus_updateCurrentStatus (tUpd : ℤ) (location : Location)
    (s : FloodStatus) (w r w2 : ℚ) :
    calculateFloodStatus w2 (updateCurrentStatus tUpd location s w r)
      = calculateFloodStatus w2 location := rfl

/-- C2: `processSensorData` always overwrites the snapshot fields with
the new reading; a history row is appended exactly when the newly
classified status differs from the stored `currentStatus`; the row's
`previousStatus` is the `currentStatus` read immediately before the
snapshot update; and a second consecutive reading creates a row exactly
when its classified status differs from the first reading's. -/
theorem processSensorDataLoc_snapshot_and_history
    (tUpd tHist : ℤ) (location : Location) (w r : ℚ) :
    ((processSensorDataLoc tUpd tHist location w r).1.currentStatus
        = calculateFloodStatus w location ∧
      (processSensorDataLoc tUpd tHist location w r).1.currentWaterLevel = some w ∧
      (processSensorDataLoc tUpd tHist location w r).1.currentRainfall = some r ∧
      (processSensorDataLoc tUpd tHist location w r).1.lastUpdate = some tUpd) ∧
    ((processSensorDataLoc tUpd tHist location w r).2.isSome ↔
      calculateFloodStatus w location ≠ location.currentStatus) ∧
    (∀ h, (processSensorDataLoc tUpd tHist location w r).2 = some h →
      h.previousStatus = location.currentStatus) ∧
    (∀ (tUpd2 tHist2 : ℤ) (w2 r2 : ℚ),
      (processSensorDataLoc tUpd2 tHist2
          (processSensorDataLoc tUpd tHist location w r).1 w2 r2).2 = none ↔
        calculateFloodStatus w2 location = calculateFloodStatus w location) := by
  refine ⟨?_, ?_, ?_, ?_⟩
  · rw [processSensorDataLoc_fst]
    exact ⟨rfl, rfl, rfl, rfl⟩
  · rw [processSensorDataLoc_snd]
    split
    case isTrue h =>
      exact ⟨fun _ => Ne.symm h, fun _ => rfl⟩
    case isFalse h =>
      push_neg at h
      simp [h]
  · intro hrow hsome
    rw [processSensorDataLoc_snd] at hsome
    split at hsome
    case isTrue hc =>
      injection hsome with h2
      rw [← h2]
      rfl
    case isFalse hc =>
      exact absurd hsome (by simp)
  · intro tUpd2 tHist2 w2 r2
    rw [processSensorDataLoc_snd tUpd2 tHist2, processSensorDataLoc_fst,
      calculateFloodStatus_updateCurrentStatus]
    show (if calculateFloodStatus w location ≠ calculateFloodStatus w2 location
        then some _ else none) = none ↔ _
    split
    case isTrue h =>
      simp [Ne.symm h]
    case isFalse h =>
      push_neg at h
      simp [h.symm]

/-- The Scenario A location: AMAN snapshot, bands 79 / 80-149 / 150-199
/ 200. -/
def exLocA : Location :=
  { id := 2, name := "Wonokromo", isActive := true,
    currentStatus := .AMAN, currentWaterLevel := some 40,
    currentRainfall := some 0, lastUpdate := some 0,
    amanMax := 79, waspadaMin := 80, waspadaMax := 149,
    siagaMin := 150, siagaMax := 199, bahayaMin := 200 }

/-- The history row that Scenario A's transition writes. -/
def exRowA : HistoryRow :=
  { locationId := 2, previousStatus := .AMAN, newStatus := .WASPADA,
    waterLevel := 85, rainfall := 2, duration := 0, changedAt := 60000 }

theorem processSensorDataLoc_snapshot_and_history_witness :
    (processSensorDataLoc 60000 60000 exLocA 85 2).2 = some exRowA ∧
    FloodStatus.AMAN = exLocA.currentStatus ∧
    (processSensorDataLoc 0 0 (processSensorDataLoc 60000 60000 exLocA 85 2).1 90 0).2
        = none := by
  have h := processSensorDataLoc_snapshot_and_history 60000 60000 exLocA 85 2
  refine ⟨by decide, ?_, ?_⟩
  · exact (h.2.2.1 exRowA (by decide)).symm
  · exact (h.2.2.2 0 0 90 0).mpr (by decide)

/-- A location that has been sitting in status AMAN since time 0: its
snapshot was last written 30 minutes before the reading processed
below. -/
def exLocDwell : Location :=
  { id := 3, name := "Gubeng", isActive := true,
    currentStatus := .AMAN, currentWaterLevel := some 40,
    currentRainfall := some 0, lastUpdate := some 0,
    amanMax := 79, waspadaMin := 80, waspadaMax := 149,
    siagaMin := 150, siagaMax := 199, bahayaMin := 200 }

/-- C3: a reading arriving at t = 1800000 ms (30 minutes after the
location's `lastUpdate` of 0) and changing the status stores
`duration = 0` on the history row, because `createStatusHistory`
re-fetches the location after `updateCurrentStatus` has already
overwritten `lastUpdate` with the current time; the dwell time the
claim (and the function's own documentation) asks for is 30 minutes. -/
theorem createStatusHistory_duration_is_not_dwell_time :
    exLocDwell.lastUpdate = some 0 ∧
    ((processSensorDataLoc 1800000 1800000 exLocDwell 85 0).2.map HistoryRow.duration
      = some 0) ∧
    Int.fdiv (1800000 - 0) 60000 = 30 := by
  refine ⟨rfl, by decide, by decide⟩


/-- A row of the `devices` table, restricted to the columns the core
touches. -/
structure Device where
  code : String
  description : Option String
  locationId : Nat
  status : DeviceStatus
  lastSeen : Option ℤ
deriving DecidableEq, Repr

/-- A row of the `sensor_logs` table.  `id` records insertion order. -/
structure SensorLog where
  id : Nat
  deviceCode : String
  rainfall : Option ℚ
  waterLevel : Option ℚ
  timestamp : ℤ
deriving DecidableEq, Repr

/-- The persistent store: each table as a list in insertion order,
plus the module-level mutable `sensorData` scratch variable of the app
wiring file. -/
structure DB where
  devices : List Device
  locations : List Location
  sensorLogs : List SensorLog
  histories : List HistoryRow
  lastSensor : Option (String × Option ℚ × Option ℚ)
deriving DecidableEq, Repr

/-- Error values for the `throw` paths of the ingestion core. -/
inductive Err
  | notFound (what : String)
  | deviceExists
  | noLocation
  | conflict
  | validation (msg : String)
  | malformedJson
deriving DecidableEq, Repr

/-- The `error.message` string attached to broadcast error events. -/
def Err.message : Err → String
  | .notFound what => "Not found: " ++ what
  | .deviceExists => "Device with this code already exists"
  | .noLocation => "No active location found. Please create a location first."
  | .conflict => "Conflict: Duplicate field"
  | .validation msg => msg
  | .malformedJson => "Unexpected token in JSON"

/-- `DeviceRepository.findByCode`: exact unique lookup, `null` when
absent. -/
def repoFindByCode (db : DB) (code : String) : Option Device :=
  db.devices.find? (fun d => d.code == code)

/-- `DeviceService.findByCode`: wraps the repository lookup and throws
`Device with code ... not found` when it returns null. -/
def serviceFindByCode (db : DB) (code : String) : Except Err Device :=
  match repoFindByCode db code with
  | some d => .ok d
  | none => .error (.notFound ("Device with code " ++ code ++ " not found"))

/-- `DeviceRepository.updateHeartbeat`: `prisma.device.update` setting
`status = CONNECTED` and `lastSeen = timestamp`; throws when no row has
the code. -/
def repoUpdateHeartbeat (db : DB) (code : String) (timestamp : ℤ) :
    Except Err (DB × Device) :=
  match repoFindByCode db code with
  | none => .error (.notFound ("Device with code " ++ code ++ " not found"))
  | some d =>
    let updated : Device := { d with status := .CONNECTED, lastSeen := some timestamp }
    .ok ({ db with devices :=
            db.devices.map (fun x => if x.code == code then updated else x) },
         updated)

/-- `DeviceService.updateHeartbeat`: checks existence via the throwing
`findByCode`, then delegates to the repository. -/
def serviceUpdateHeartbeat (db : DB) (code : String) (timestamp : ℤ) :
    Except Err (DB × Device) :=
  match serviceFindByCode db code with
  | .error e => .error e
  | .ok _ => repoUpdateHeartbeat db code timestamp

/-- `DeviceRepository.getDefaultLocationId`:
`prisma.location.findFirst` and throw when no location exists. -/
def repoGetDefaultLocationId (db : DB) : Except Err Nat :=
  match db.locations.head? with
  | some l => .ok l.id
  | none => .error .noLocation

/-- `DeviceRepository.create`: insert with `status = DISCONNECTED` and
`lastSeen = null`; the unique constraint on `code` makes a duplicate
insert throw a conflict. -/
def repoCreateDevice (db : DB) (code : String) (description : Option String)
    (locationId : Nat) : Except Err (DB × Device) :=
  if db.devices.any (fun d => d.code == code) then
    .error .conflict
  else
    let d : Device := { code := code, description := description,
                        locationId := locationId, status := .DISCONNECTED,
                        lastSeen := none }
    .ok ({ db with devices := db.devices ++ [d] }, d)

/-- `DeviceService.createDevice`: reject when the code already exists,
fill in the default location when none is given, then insert. -/
def serviceCreateDevice (db : DB) (code : String) (description : Option String)
    (locationId : Option Nat) : Except Err (DB × Device) :=
  match repoFindByCode db code with
  | some _ => .error .deviceExists
  | none =>
    match locationId with
    | some lid => repoCreateDevice db code description lid
    | none =>
      match repoGetDefaultLocationId db with
      | .error e => .error e
      | .ok lid => repoCreateDevice db code description lid

/-- JavaScript `a || b` on an optional string: both `null`/`undefined`
and the empty string are falsy. -/
def jsStrOr (a b : Option String) : Option String :=
  match a with
  | some s => if s = "" then b else some s
  | none => b

/-- `DeviceService.ensureDeviceExists`: try the throwing `findByCode`;
when it succeeds, touch the heartbeat and return; when it throws, fetch
the default location and create the device with an auto-generated
description fallback. -/
def serviceEnsureDeviceExists (now : ℤ) (db : DB) (code : String)
    (description : Option String) : Except Err (DB × Device) :=
  let createPath : Except Err (DB × Device) :=
    match repoGetDefaultLocationId db with
    | .error e => .error e
    | .ok lid =>
      let desc := (jsStrOr description (some ("Auto-created device " ++ code))).getD ""
      serviceCreateDevice db code (some desc) (some lid)
  match serviceFindByCode db code with
  | .ok _ =>
    match serviceUpdateHeartbeat db code now with
    | .ok r => .ok r
    | .error _ => createPath
  | .error _ => createPath

/-- The payload of `emitDeviceStatusChange` in
`DeviceMonitoringService`: `{deviceCode, status, lastSeen, timestamp,
reason}` (the wall-clock `timestamp` string is omitted from the
model). -/
structure StatusData where
  deviceCode : String
  status : DeviceStatus
  lastSeen : Option ℤ
  reason : String
deriving DecidableEq, Repr

/-- The notification envelope produced by `createNotification` in
`utils/notification.js` plus the fields the handlers put into `data`
(id and ISO timestamp omitted). -/
structure NotificationMsg where
  ntype : String
  title : String
  severity : String
  deviceCode : Option String
  locationId : Option Nat
deriving DecidableEq, Repr

/-- `DeviceRepository.getStatusSummary` result: the source destructures
FOUR names from a THREE-element `Promise.all` array, so `active` is the
JS `undefined` of a missing fourth element. -/
structure StatusSummary where
  connected : Option Nat
  disconnected : Option Nat
  total : Option Nat
  active : Option Nat
deriving DecidableEq, Repr

/-- One socket emission.  Each constructor is one `io.emit` /
`emitToAll` call site of the ingestion core, carrying the parts of its
payload that the claims inspect; `channel`-suffixed duplicates model
the per-device / per-location re-emissions. -/
inductive Event
  | deviceStatusChanged (payload : StatusData)
  | newNotification (n : NotificationMsg)
  | deviceStatusSummary (s : StatusSummary)
  | deviceHeartbeatError (topic : String) (emsg : String)
  | deviceCheckError (emsg : String)
  | deviceCheckResult (deviceCode : String) (isNewDevice : Bool)
  | sensorData (channel : String) (deviceCode : String)
      (waterlevel rainfall : Option ℚ)
  | sensorDataSaved (deviceCode : String)
  | sensorDataError (emsg : String)
  | locationStatusChanged (channel : String) (locationId : Nat)
      (previousStatus newStatus : FloodStatus)
  | locationProcessingError (deviceCode : String) (emsg : String)
  | floodWarningsUpdated (count : Nat)
  | floodSummaryUpdated
  | errorNotification (source : String) (emsg : String)
deriving DecidableEq, Repr

/-- `DeviceMonitoringService.emitDeviceStatusChange`: the one shared
emission used both by live heartbeats (reason `heartbeat`) and by the
offline sweep (reason `timeout`). -/
def emitDeviceStatusChange (device : Device) (reason : String) : Event :=
  .deviceStatusChanged
    { deviceCode := device.code, status := device.status,
      lastSeen := device.lastSeen, reason := reason }

/-- `DeviceMonitoringService.handleHeartbeat`: ensure the device exists
(auto-create if needed), touch the heartbeat, and emit
`device_status_changed` with reason `heartbeat`. -/
def monHandleHeartbeat (now : ℤ) (db : DB) (code : String)
    (description : Option String) : Except Err (DB × Device × List Event) :=
  match serviceEnsureDeviceExists now db code description with
  | .error e => .error e
  | .ok (db1, _) =>
    match serviceUpdateHeartbeat db1 code now with
    | .error e => .error e
    | .ok (db2, device) => .ok (db2, device, [emitDeviceStatusChange device "heartbeat"])

/-- `DeviceRepository.getStatusSummary`: `Promise.all` of the three
counts, then `const [connected, disconnected, total, active] = ...`,
so the fourth destructured name reads past the end of the array. -/
def repoGetStatusSummary (db : DB) : StatusSummary :=
  let results : List Nat :=
    [(db.devices.filter (fun d => d.status == .CONNECTED)).length,
     (db.devices.filter (fun d => d.status == .DISCONNECTED)).length,
     db.devices.length]
  { connected := results.get? 0, disconnected := results.get? 1,
    total := results.get? 2, active := results.get? 3 }

/-- `DeviceRepository.findPotentiallyOfflineDevices`: the CONNECTED
devices whose `lastSeen` is strictly older than `now` minus the
timeout, or null. -/
def findPotentiallyOfflineDevices (now : ℤ) (thresholdMinutes : ℤ) (db : DB) :
    List Device :=
  let thresholdTime := now - thresholdMinutes * 60000
  db.devices.filter (fun d =>
    d.status == .CONNECTED &&
      (match d.lastSeen with
       | some t => decide (t < thresholdTime)
       | none => true))

/-- `DeviceRepository.bulkUpdateStatusToDisconnected`: one `updateMany`
setting `status = DISCONNECTED` for every device whose code is in the
list. -/
def bulkUpdateStatusToDisconnected (db : DB) (deviceCodes : List String) : DB :=
  { db with devices := db.devices.map (fun d =>
      if deviceCodes.contains d.code then { d with status := .DISCONNECTED } else d) }

/-- `DeviceService.checkAndUpdateOfflineDevices`: find the stale
CONNECTED devices, bulk-mark them (only when the list is non-empty),
and return the found set. -/
def serviceCheckAndUpdateOfflineDevices (now : ℤ) (timeoutMinutes : ℤ) (db : DB) :
    DB × List Device :=
  let potentiallyOffline := findPotentiallyOfflineDevices now timeoutMinutes db
  let offlineDeviceCodes := potentiallyOffline.map (fun d => d.code)
  let db1 :=
    if offlineDeviceCodes.length > 0 then
      bulkUpdateStatusToDisconnected db offlineDeviceCodes
    else db
  (db1, potentiallyOffline)

/-- `DeviceMonitoringService.checkOfflineDevices`: one sweep tick with
the service's 5-minute `heartbeatTimeout`; for each device found
offline, emit `device_status_changed` with the device spread-updated to
DISCONNECTED and reason `timeout`. -/
def checkOfflineDevices (now : ℤ) (db : DB) : DB × List Event :=
  let (db1, offline) := serviceCheckAndUpdateOfflineDevices now 5 db
  (db1, offline.map (fun d => emitDeviceStatusChange { d with status := .DISCONNECTED } "timeout"))

/-- The JSON object fields the three MQTT handlers read.  A field that
is absent from the payload is `none`. -/
structure PayloadData where
  deviceCode : Option String
  code : Option String
  description : Option String
  location : Option String
  timestamp : Option ℤ
  waterlevel_cm : Option ℚ
  waterLevel : Option ℚ
  waterlevel : Option ℚ
  rainfall_mm : Option ℚ
  rainfall : Option ℚ
  rain : Option ℚ
deriving DecidableEq, Repr

/-- A raw MQTT payload: `none` models a byte string that
`JSON.parse` rejects. -/
abbrev Payload := Option PayloadData

/-- A payload with every field absent. -/
def emptyPayload : PayloadData :=
  { deviceCode := none, code := none, description := none, location := none,
    timestamp := none, waterlevel_cm := none, waterLevel := none,
    waterlevel := none, rainfall_mm := none, rainfall := none, rain := none }

/-- JavaScript `a || b` on an optional number: `null`/`undefined` and
`0` are falsy (NaN, which is also falsy, is outside this model). -/
def jsNumOr (a b : Option ℚ) : Option ℚ :=
  match a with
  | some x => if x = 0 then b else some x
  | none => b

/-- `json.waterlevel_cm || json.waterLevel || json.waterlevel || null`
from `SensorDataHandler.handleSensorData`. -/
def extractWaterLevel (p : PayloadData) : Option ℚ :=
  jsNumOr p.waterlevel_cm (jsNumOr p.waterLevel (jsNumOr p.waterlevel none))

/-- `json.rainfall_mm || json.rainfall || json.rain || null` from
`SensorDataHandler.handleSensorData`. -/
def extractRainfall (p : PayloadData) : Option ℚ :=
  jsNumOr p.rainfall_mm (jsNumOr p.rainfall (jsNumOr p.rain none))

/-- The alias rule exactly as the claim words it: the first PRESENT
NON-NULL value wins, and null results only when all aliases are absent.
Written from the specification text, to be compared with the
`||`-cascade of the source. -/
def claimFirstPresent (aliases : List (Option ℚ)) : Option ℚ :=
  (aliases.filterMap id).head?

/-- The result object of `HeartbeatHandler.handleHeartbeat`. -/
structure HeartbeatResult where
  device : Device
  statusChanged : Bool
  previousStatus : DeviceStatus
  newStatus : DeviceStatus
deriving DecidableEq, Repr

/-- The `device_status_change` notification built by
`HeartbeatHandler` when the connectivity status flipped. -/
def mkDeviceStatusChangeNotification (code : String) (status : DeviceStatus) :
    NotificationMsg :=
  { ntype := "device_status_change",
    title := (if status == .CONNECTED then "Device " ++ code ++ " Connected"
              else "Device " ++ code ++ " Disconnected"),
    severity := (if status == .CONNECTED then "low" else "medium"),
    deviceCode := some code, locationId := none }

/-- `HeartbeatHandler.handleHeartbeat` from the MQTT-handler revision
used by the final app wiring: parse, resolve the device code from the
topic or the payload, look up the PRE-state via the THROWING
`DeviceService.findByCode`, delegate to the monitoring service, and on
a connectivity flip emit the titled notification plus the status
summary.  Every thrown error is converted to a
`device_heartbeat_error` emission and rethrown. -/
def handleHeartbeatMsg (now : ℤ) (db : DB) (topic : String) (payload : Payload)
    (topicDeviceCode : Option String) : DB × List Event × Except Err HeartbeatResult :=
  match payload with
  | none => (db, [.deviceHeartbeatError topic (Err.message .malformedJson)],
             .error .malformedJson)
  | some p =>
    match jsStrOr topicDeviceCode (jsStrOr p.deviceCode p.code) with
    | none =>
      let e := Err.validation "Heartbeat message missing device code"
      (db, [.deviceHeartbeatError topic e.message], .error e)
    | some code =>
      match serviceFindByCode db code with
      | .error e => (db, [.deviceHeartbeatError topic e.message], .error e)
      | .ok deviceBefore =>
        let previousStatus := deviceBefore.status
        match monHandleHeartbeat now db code p.description with
        | .error e => (db, [.deviceHeartbeatError topic e.message], .error e)
        | .ok (db1, device, evs1) =>
          let statusChanged := previousStatus != device.status
          let evs2 :=
            if statusChanged then
              [Event.newNotification (mkDeviceStatusChangeNotification code device.status),
               Event.deviceStatusSummary (repoGetStatusSummary db1)]
            else []
          (db1, evs1 ++ evs2,
           .ok { device := device, statusChanged := statusChanged,
                 previousStatus := previousStatus, newStatus := device.status })

/-- The result object of `DeviceCheckHandler.handleDeviceCheck`. -/
structure DeviceCheckOutcome where
  device : Device
  isNewDevice : Bool
deriving DecidableEq, Repr

/-- The `new_device` notification of `DeviceCheckHandler`. -/
def mkNewDeviceNotification (code : String) : NotificationMsg :=
  { ntype := "new_device", title := "New Device Registered: " ++ code,
    severity := "low", deviceCode := some code, locationId := none }

/-- `DeviceCheckHandler.handleDeviceCheck`: parse, require
`json.deviceCode`, call `ensureDeviceExists`, and set
`isNewDevice = !device`.  `ensureDeviceExists` resolves with the device
object - never null or undefined - so the JS truthiness test on the
returned reference is the `isNone` test on an always-`some` option. -/
def handleDeviceCheckMsg (now : ℤ) (db : DB) (payload : Payload) :
    DB × List Event × Except Err DeviceCheckOutcome :=
  match payload with
  | none => (db, [.deviceCheckError (Err.message .malformedJson)],
             .error .malformedJson)
  | some p =>
    match jsStrOr p.deviceCode none with
    | none =>
      let e := Err.validation "Device code not provided"
      (db, [.deviceCheckError e.message, .deviceCheckError e.message], .error e)
    | some code =>
      let desc := jsStrOr p.description
        (some ("Auto-created device with code " ++ code))
      match serviceEnsureDeviceExists now db code desc with
      | .error e => (db, [.deviceCheckError e.message], .error e)
      | .ok (db1, device) =>
        let deviceRef : Option Device := some device
        let isNewDevice := deviceRef.isNone
        let evs :=
          (if isNewDevice then [Event.newNotification (mkNewDeviceNotification code)]
           else [])
          ++ [Event.deviceCheckResult code isNewDevice]
        (db1, evs, .ok { device := device, isNewDevice := isNewDevice })

/-- `LocationRepository.findByDeviceCode`: unique device lookup with its
location joined; null when the device is absent. -/
def findLocationByDeviceCode (db : DB) (deviceCode : String) : Option Location :=
  match repoFindByCode db deviceCode with
  | none => none
  | some d => db.locations.find? (fun l => l.id == d.locationId)

/-- The result object of `LocationService.processSensorData`.  The
returned object has no `statusHistory` key, which the sensor handler
nevertheless reads; that read yields JS `undefined`, modelled as a
field fixed to `none`. -/
structure ProcessResult where
  location : Location
  statusChanged : Bool
  previousStatus : FloodStatus
  newStatus : FloodStatus
  statusHistory : Option HistoryRow
deriving DecidableEq, Repr

/-- `LocationService.processSensorData` over the store: resolve the
location owned by the device, run the classification/update/history
step, and write the results back. -/
def serviceProcessSensorData (tUpd tHist : ℤ) (db : DB) (deviceCode : String)
    (waterLevel rainfall : ℚ) : Except Err (DB × ProcessResult) :=
  match findLocationByDeviceCode db deviceCode with
  | none => .error (.notFound ("Location not found for device " ++ deviceCode))
  | some location =>
    let out := processSensorDataLoc tUpd tHist location waterLevel rainfall
    let db1 : DB :=
      { db with
        locations := db.locations.map (fun l => if l.id == location.id then out.1 else l),
        histories := db.histories ++ out.2.toList }
    .ok (db1,
      { location := out.1,
        statusChanged := location.currentStatus != calculateFloodStatus waterLevel location,
        previousStatus := location.currentStatus,
        newStatus := calculateFloodStatus waterLevel location,
        statusHistory := none })

/-- `LocationRepository.findActiveFloodLocations`: active locations
whose `currentStatus` is not AMAN. -/
def findActiveFloodLocations (db : DB) : List Location :=
  db.locations.filter (fun l => l.isActive && l.currentStatus != .AMAN)

/-- `SensorLogRepository.create`: append a reading; the foreign key on
`deviceCode` makes an insert for an unknown device throw. -/
def repoCreateSensorLog (db : DB) (deviceCode : String)
    (rainfall waterLevel : Option ℚ) (timestamp : ℤ) : Except Err (DB × SensorLog) :=
  if (repoFindByCode db deviceCode).isNone then
    .error .conflict
  else
    let log : SensorLog :=
      { id := db.sensorLogs.length, deviceCode := deviceCode,
        rainfall := rainfall, waterLevel := waterLevel, timestamp := timestamp }
    .ok ({ db with sensorLogs := db.sensorLogs ++ [log] }, log)

/-- `SensorLogService.createSensorLog`: require a device code, require
at least one metric, default the timestamp to now (a zero timestamp is
falsy in JS and also defaults), then insert. -/
def serviceCreateSensorLog (now : ℤ) (db : DB) (deviceCode : Option String)
    (rainfall waterLevel : Option ℚ) (timestamp : Option ℤ) :
    Except Err (DB × SensorLog) :=
  match jsStrOr deviceCode none with
  | none => .error (.validation "Device ID is required")
  | some code =>
    if rainfall.isNone ∧ waterLevel.isNone then
      .error (.validation "At least one of rainfall or waterLevel must be provided")
    else
      let ts := match timestamp with
                | some t => if t = 0 then now else t
                | none => now
      repoCreateSensorLog db code rainfall waterLevel ts

/-- `SensorDataHandler.saveSensorData`: skip silently when both metrics
are null; otherwise insert through the controller; a 201 emits
`sensor-data-saved`, a failure emits `sensor-data-error` and
rethrows. -/
def saveSensorData (now : ℤ) (db : DB) (deviceCode : String)
    (waterlevel rainfall : Option ℚ) (timestamp : ℤ) :
    DB × List Event × Except Err Bool :=
  if waterlevel.isNone ∧ rainfall.isNone then
    (db, [], .ok false)
  else
    match serviceCreateSensorLog now db (some deviceCode) rainfall waterlevel
        (some timestamp) with
    | .ok (db1, _) => (db1, [.sensorDataSaved deviceCode], .ok true)
    | .error e =>
      (db, [.sensorDataError e.message, .sensorDataError e.message], .error e)

/-- `SensorDataHandler.updateFloodInformation`: recompute and broadcast
the active flood warnings and the flood summary; its own errors are
swallowed (and cannot arise in this pure model). -/
def updateFloodInformation (db : DB) : List Event :=
  [.floodWarningsUpdated (findActiveFloodLocations db).length, .floodSummaryUpdated]

/-- `SensorDataHandler.createLocationNotifications` severity map. -/
def locationSeverity : FloodStatus → String
  | .BAHAYA => "high"
  | .SIAGA => "high"
  | .WASPADA => "medium"
  | .AMAN => "low"

/-- `SensorDataHandler.createLocationNotifications` title map. -/
def locationTitle (status : FloodStatus) : String :=
  match status with
  | .BAHAYA => "Banjir"
  | .SIAGA => "Siaga"
  | .WASPADA => "Waspada"
  | .AMAN => "Status"

/-- `SensorDataHandler.handleLocationStatusChange` plus
`createLocationNotifications`: the emissions made when the location
status flipped.  The `emitStatusHistory` branch is guarded by the
(always-undefined) `statusHistory` field and can only fire when that
field is truthy. -/
def handleLocationStatusChange (res : ProcessResult) (deviceCode : String) :
    List Event :=
  [.locationStatusChanged "location_status_changed" res.location.id
      res.previousStatus res.newStatus,
   .locationStatusChanged ("location_status_" ++ toString res.location.id)
      res.location.id res.previousStatus res.newStatus]
  ++ (if (res.newStatus != .AMAN) && res.statusHistory.isSome then
        [Event.floodSummaryUpdated]
      else [])
  ++ (if res.newStatus != .AMAN then
        [Event.newNotification
          { ntype := "location_status_change",
            title := locationTitle res.newStatus,
            severity := locationSeverity res.newStatus,
            deviceCode := some deviceCode,
            locationId := some res.location.id }]
        ++ (if res.previousStatus == .AMAN then
              [Event.newNotification
                { ntype := "new_flood_location",
                  title := "Lokasi Banjir Baru: " ++ res.location.name,
                  severity := "high",
                  deviceCode := some deviceCode,
                  locationId := some res.location.id }]
            else [])
      else [])

/-- `SensorDataHandler.processLocationStatus`: run the location engine,
emit the change events on a flip, refresh the flood broadcasts, and on
error emit `location_processing_error` and rethrow. -/
def processLocationStatus (now : ℤ) (db : DB) (deviceCode : String)
    (waterLevel rainfall : ℚ) : DB × List Event × Except Err ProcessResult :=
  match serviceProcessSensorData now now db deviceCode waterLevel rainfall with
  | .error e => (db, [.locationProcessingError deviceCode e.message], .error e)
  | .ok (db1, res) =>
    let evs := (if res.statusChanged then handleLocationStatusChange res deviceCode
                else [])
               ++ updateFloodInformation db1
    (db1, evs, .ok res)

/-- `SensorDataHandler.handleSensorData`: parse, resolve the device
code, read the metric aliases, best-effort heartbeat, persist, run the
location engine when a water level is present, then emit the
`sensor-data` events.  Every thrown error is converted into a
`sensor-data-error` emission and rethrown. -/
def handleSensorDataMsg (now : ℤ) (db : DB) (topic : String) (payload : Payload)
    (topicDeviceCode : Option String) :
    DB × List Event × Except Err (String × Option ℚ × Option ℚ) :=
  match payload with
  | none => (db, [.sensorDataError (Err.message .malformedJson)],
             .error .malformedJson)
  | some p =>
    match jsStrOr topicDeviceCode (jsStrOr p.deviceCode p.code) with
    | none =>
      let e := Err.validation "Sensor data missing device code"
      (db, [.sensorDataError e.message], .error e)
    | some code =>
      let waterLevel := extractWaterLevel p
      let rainfall := extractRainfall p
      let hb := match monHandleHeartbeat now db code none with
                | .ok (db1, _, evs) => (db1, evs)
                | .error _ => (db, [])
      match saveSensorData now hb.1 code waterLevel rainfall now with
      | (db2, evs2, .error e) =>
        (db2, hb.2 ++ evs2 ++ [.sensorDataError e.message], .error e)
      | (db2, evs2, .ok _) =>
        let sensorEvents : List Event :=
          [.sensorData "sensor-data" code waterLevel rainfall,
           .sensorData ("sensor-data-" ++ code) code waterLevel rainfall]
        match waterLevel with
        | none =>
          (db2, hb.2 ++ evs2 ++ sensorEvents, .ok (code, waterLevel, rainfall))
        | some w =>
          match processLocationStatus now db2 code w ((jsNumOr rainfall (some 0)).getD 0) with
          | (db3, evs3, .error e) =>
            (db3, hb.2 ++ evs2 ++ evs3 ++ [.sensorDataError e.message], .error e)
          | (db3, evs3, .ok _) =>
            (db3, hb.2 ++ evs2 ++ evs3 ++ sensorEvents, .ok (code, waterLevel, rainfall))

/-- Split a character list on a separator character; always returns at
least one (possibly empty) part, like `String.prototype.split`. -/
def splitOnChar (c : Char) : List Char → List (List Char)
  | [] => [[]]
  | x :: xs =>
    match splitOnChar c xs with
    | [] => [[]]
    | h :: t => if x = c then [] :: h :: t else (x :: h) :: t

/-- `topic.split('/')` from `MqttMessageRouter.routeMessage`. -/
def splitSlash (s : String) : List String :=
  (splitOnChar '/' s.data).map (fun cs => String.mk cs)

/-- Does the character list start with the given needle? -/
def charListStartsWith : List Char → List Char → Bool
  | [], _ => true
  | _ :: _, [] => false
  | x :: xs, y :: ys => x = y && charListStartsWith xs ys

/-- Does the needle occur anywhere in the haystack? -/
def charListHas (needle hay : List Char) : Bool :=
  match hay with
  | [] => needle.isEmpty
  | _ :: t => charListStartsWith needle hay || charListHas needle t

/-- JavaScript `String.prototype.includes`. -/
def strContains (s sub : String) : Bool :=
  charListHas sub.data s.data

/-- The value `routeMessage` returns for a handled topic (the
handler's result object) or for an unmatched topic
(`{success:false, reason:'Unhandled topic'}`). -/
inductive RouteResult
  | heartbeat (r : HeartbeatResult)
  | deviceCheck (r : DeviceCheckOutcome)
  | sensor (r : String × Option ℚ × Option ℚ)
  | unhandled
deriving DecidableEq, Repr

/-- `MqttMessageRouter.determineRoute`: sequential topic matching in
source order - heartbeat substring, exact check topic, sensor topics,
otherwise unhandled. -/
def determineRoute (now : ℤ) (db : DB) (topic : String) (payload : Payload)
    (deviceCode : Option String) : DB × List Event × Except Err RouteResult :=
  if strContains topic "/heartbeat" then
    let (db1, evs, r) := handleHeartbeatMsg now db topic payload deviceCode
    (db1, evs, r.map .heartbeat)
  else if topic = "binatra-device/check/device" then
    let (db1, evs, r) := handleDeviceCheckMsg now db payload
    (db1, evs, r.map .deviceCheck)
  else if topic = "binatra-device/sensor" || strContains topic "/sensor" then
    let (db1, evs, r) := handleSensorDataMsg now db topic payload deviceCode
    (db1, evs, r.map .sensor)
  else
    (db, [], .ok .unhandled)

/-- `MqttMessageRouter.routeMessage`: extract the device code from a
`binatra-device/{code}/...` topic, dispatch, and convert any handler
throw into a `sensor-data-error` emission before rethrowing. -/
def routeMessage (now : ℤ) (db : DB) (topic : String) (payload : Payload) :
    DB × List Event × Except Err RouteResult :=
  let topicParts := splitSlash topic
  let deviceCode : Option String :=
    if topicParts.length ≥ 3 ∧ topicParts.head? = some "binatra-device" then
      topicParts.get? 1
    else none
  match determineRoute now db topic payload deviceCode with
  | (db1, evs, .ok r) => (db1, evs, .ok r)
  | (db1, evs, .error e) =>
    (db1, evs ++ [.sensorDataError e.message], .error e)

/-- The `result.success && result.sensorData` update of the module
level `sensorData` variable in the app wiring file: only a successful
sensor route carries `sensorData`. -/
def updateGlobalSensor (db : DB) (r : RouteResult) : DB :=
  match r with
  | .sensor s => { db with lastSensor := some s }
  | _ => db

/-- The `mqttClient.on('message')` boundary of the final app wiring
revision: route the message; on success update the scratch variable;
on any throw, log and emit `emitErrorNotification('MQTT Handler', ...)`
- the exception never escapes. -/
def mqttOnMessage (now : ℤ) (db : DB) (topic : String) (payload : Payload) :
    DB × List Event :=
  match routeMessage now db topic payload with
  | (db1, evs, .ok r) => (updateGlobalSensor db1 r, evs)
  | (db1, evs, .error e) =>
    (db1, evs ++ [.errorNotification "MQTT Handler" e.message])

/-- Sequential processing of a stream of MQTT messages through the
`on('message')` boundary, accumulating emissions. -/
def processMessages (now : ℤ) (db : DB) :
    List (String × Payload) → DB × List Event
  | [] => (db, [])
  | m :: rest =>
    let out1 := mqttOnMessage now db m.1 m.2
    let out2 := processMessages now out1.1 rest
    (out2.1, out1.2 ++ out2.2)

/-- `new Date(x).setUTCHours(0,0,0,0)`: truncate an epoch-millisecond
time to the start of its UTC day. -/
def dayStart (t : ℤ) : ℤ := 86400000 * Int.fdiv t 86400000

/-- `new Date(x).setUTCHours(23,59,59,999)`: the last millisecond of
the UTC day of `t`. -/
def dayEnd (t : ℤ) : ℤ := dayStart t + 86399999

/-- The where-clause of `SensorLogRepository.findByDateRange`: match
the device code and the day-expanded `gte`/`lte` bounds that are
present. -/
def logMatches (deviceCode : String) (startDate endDate : Option ℤ)
    (log : SensorLog) : Bool :=
  log.deviceCode == deviceCode &&
    (match startDate with
     | some s => decide (dayStart s ≤ log.timestamp)
     | none => true) &&
    (match endDate with
     | some e => decide (log.timestamp ≤ dayEnd e)
     | none => true)

/-- Sorting key of `orderBy: { timestamp: 'desc' }`. -/
def tsDesc (a b : SensorLog) : Prop := b.timestamp ≤ a.timestamp

instance : DecidableRel tsDesc := fun a b => Int.decLe b.timestamp a.timestamp

instance : IsTotal SensorLog tsDesc :=
  ⟨fun a b => (le_total b.timestamp a.timestamp).imp id id⟩

instance : IsTrans SensorLog tsDesc :=
  ⟨fun _ _ _ hab hbc => le_trans hbc hab⟩

/-- `SensorLogRepository.findByDateRange`: null when neither bound is
given; otherwise the matching readings ordered by
`timestamp: 'desc'`. -/
def findByDateRange (db : DB) (deviceCode : String)
    (startDate endDate : Option ℤ) : Option (List SensorLog) :=
  match startDate, endDate with
  | none, none => none
  | _, _ =>
    some (List.insertionSort tsDesc
      (db.sensorLogs.filter (logMatches deviceCode startDate endDate)))

instance {e a : Type} [DecidableEq e] [DecidableEq a] : DecidableEq (Except e a) :=
  fun x y =>
    match x, y with
    | .ok v, .ok w =>
      if h : v = w then isTrue (by rw [h]) else isFalse (fun hc => h (by injection hc))
    | .error v, .error w =>
      if h : v = w then isTrue (by rw [h]) else isFalse (fun hc => h (by injection hc))
    | .ok _, .error _ => isFalse (fun hc => Except.noConfusion hc)
    | .error _, .ok _ => isFalse (fun hc => Except.noConfusion hc)

/-- A default location for auto-registration scenarios. -/
def exLocDefault : Location :=
  { id := 10, name := "Default Site", isActive := true,
    currentStatus := .AMAN, currentWaterLevel := none,
    currentRainfall := none, lastUpdate := none,
    amanMax := 79, waspadaMin := 80, waspadaMax := 149,
    siagaMin := 150, siagaMax := 199, bahayaMin := 200 }

/-- A store holding one location and no devices. -/
def dbNoDevices : DB :=
  { devices := [], locations := [exLocDefault], sensorLogs := [],
    histories := [], lastSensor := none }

/-- C4: a heartbeat from the unknown device code `X1` does NOT
auto-register it - the handler's pre-check goes through the throwing
`DeviceService.findByCode`, so the message fails with a not-found error
and no device row is created - even though the monitoring service's own
`handleHeartbeat`, which the handler never reaches, would have created
the device and marked it CONNECTED. -/
theorem heartbeat_unknown_device_fails_not_registers :
    (handleHeartbeatMsg 0 dbNoDevices "binatra-device/X1/heartbeat"
        (some emptyPayload) (some "X1")).2.2
      = .error (.notFound "Device with code X1 not found") ∧
    repoFindByCode (handleHeartbeatMsg 0 dbNoDevices "binatra-device/X1/heartbeat"
        (some emptyPayload) (some "X1")).1 "X1" = none ∧
    (monHandleHeartbeat 0 dbNoDevices "X1" none).toOption.map
        (fun out => (out.2.1.code, out.2.1.status))
      = some ("X1", .CONNECTED) := by
  refine ⟨by decide, by decide, by decide⟩

/-- C5: the `on('message')` boundary converts every routing error into
an `MQTT Handler` error notification appended to the emissions, and the
remaining messages of the stream are processed from the resulting state
exactly as they would be on their own - no exception escapes the
boundary. -/
theorem mqttOnMessage_catches_and_continues (now : ℤ) (db : DB) (topic : String)
    (payload : Payload) (rest : List (String × Payload)) :
    (∀ e, (routeMessage now db topic payload).2.2 = .error e →
      Event.errorNotification "MQTT Handler" e.message
        ∈ (mqttOnMessage now db topic payload).2) ∧
    processMessages now db ((topic, payload) :: rest)
      = ((processMessages now (mqttOnMessage now db topic payload).1 rest).1,
         (mqttOnMessage now db topic payload).2
           ++ (processMessages now (mqttOnMessage now db topic payload).1 rest).2) := by
  constructor
  · intro e he
    unfold mqttOnMessage
    rcases hrm : routeMessage now db topic payload with ⟨db1, evs, ex⟩
    rw [hrm] at he
    simp only at he
    cases ex with
    | ok r => exact absurd he (by simp)
    | error e2 =>
      have : e2 = e := by injection he
      subst this
      simp
  · rfl

theorem mqttOnMessage_catches_and_continues_witness :
    Event.errorNotification "MQTT Handler" (Err.message .malformedJson)
      ∈ (mqttOnMessage 0 dbNoDevices "binatra-device/D1/sensor" none).2 :=
  (mqttOnMessage_catches_and_continues 0 dbNoDevices "binatra-device/D1/sensor"
    none []).1 .malformedJson (by decide)

/-- A sensor payload whose only metric field is a present water level
of exactly 0. -/
def payloadZeroWl : PayloadData := { emptyPayload with waterlevel_cm := some 0 }

/-- C6, counterexample: a present `waterlevel_cm` of 0 is NOT taken as
the reading - the claimed first-present-non-null rule yields 0, but the
source's `||` cascade treats 0 as falsy, falls through the remaining
absent aliases and yields null. -/
theorem extractWaterLevel_drops_present_zero :
    claimFirstPresent
        [payloadZeroWl.waterlevel_cm, payloadZeroWl.waterLevel, payloadZeroWl.waterlevel]
      = some 0 ∧
    extractWaterLevel payloadZeroWl = none := by
  refine ⟨by decide, by decide⟩

/-- The JS `||`-cascade rule: the first present value that is truthy
(non-zero) wins; present zeros and absent fields both fall through, and
the result is null when every alias is absent or zero. -/
def jsFirstTruthy (aliases : List (Option ℚ)) : Option ℚ :=
  (aliases.filterMap id).find? (fun x => x != 0)

theorem find?_truthy_cons (c : ℚ) (l : List ℚ) (h : ¬ c = 0) :
    List.find? (fun x => x != 0) (c :: l) = some c := by
  apply List.find?_cons_of_pos
  simpa [bne_iff_ne] using h

theorem find?_truthy_cons_zero (l : List ℚ) :
    List.find? (fun x => x != 0) ((0 : ℚ) :: l) = List.find? (fun x => x != 0) l := by
  apply List.find?_cons_of_neg
  simp

/-- C6, amended: the water-level and rainfall aliases are read in
priority order `waterlevel_cm`, `waterLevel`, `waterlevel` (resp.
`rainfall_mm`, `rainfall`, `rain`), but with JS truthiness rather than
presence: the first present NON-ZERO value wins, a present 0 is treated
like an absent field, and the result is null when all aliases are
absent or zero. -/
theorem extract_aliases_first_truthy (p : PayloadData) :
    extractWaterLevel p
      = jsFirstTruthy [p.waterlevel_cm, p.waterLevel, p.waterlevel] ∧
    extractRainfall p
      = jsFirstTruthy [p.rainfall_mm, p.rainfall, p.rain] ∧
    extractWaterLevel { p with waterlevel_cm := some 0 }
      = extractWaterLevel { p with waterlevel_cm := none } := by
  refine ⟨?_, ?_, ?_⟩
  · rcases h1 : p.waterlevel_cm with _ | a <;>
      rcases h2 : p.waterLevel with _ | b <;>
      rcases h3 : p.waterlevel with _ | c <;>
      simp only [extractWaterLevel, jsFirstTruthy, jsNumOr, h1, h2, h3,
        List.filterMap, id] <;>
      (try split_ifs) <;>
      simp_all [find?_truthy_cons, find?_truthy_cons_zero, List.find?_nil]
  · rcases h1 : p.rainfall_mm with _ | a <;>
      rcases h2 : p.rainfall with _ | b <;>
      rcases h3 : p.rain with _ | c <;>
      simp only [extractRainfall, jsFirstTruthy, jsNumOr, h1, h2, h3,
        List.filterMap, id] <;>
      (try split_ifs) <;>
      simp_all [find?_truthy_cons, find?_truthy_cons_zero, List.find?_nil]
  · simp [extractWaterLevel, jsNumOr]

/-- A device-check payload carrying only the unknown code `X1`. -/
def payloadCheckX1 : PayloadData := { emptyPayload with deviceCode := some "X1" }

/-- Is this event a `new_device` notification? -/
def Event.isNewDeviceNotification : Event → Bool
  | .newNotification n => n.ntype == "new_device"
  | _ => false

/-- C7: a device-check for the previously-unknown code `X1` does create
the device, but emits NO `new_device` notification: `ensureDeviceExists`
always resolves with a (truthy) device object, so the handler's
`isNewDevice = !device` is always false and the notification branch is
dead. -/
theorem deviceCheck_never_emits_new_device_notification :
    repoFindByCode dbNoDevices "X1" = none ∧
    (repoFindByCode (handleDeviceCheckMsg 0 dbNoDevices (some payloadCheckX1)).1 "X1").map
        Device.code
      = some "X1" ∧
    (handleDeviceCheckMsg 0 dbNoDevices (some payloadCheckX1)).2.1.any
        Event.isNewDeviceNotification
      = false ∧
    ((handleDeviceCheckMsg 0 dbNoDevices (some payloadCheckX1)).2.2.toOption.map
        (fun o => o.isNewDevice))
      = some false := by
  refine ⟨by decide, by decide, by decide, by decide⟩

/-- Is this event a `createNotification` envelope (the only kind that
carries a title and a severity)? -/
def Event.isNotificationEvent : Event → Bool
  | .newNotification _ => true
  | _ => false

/-- A CONNECTED device whose last heartbeat was at time 0. -/
def devStale : Device :=
  { code := "DEV1", description := none, locationId := 10,
    status := .CONNECTED, lastSeen := some 0 }

/-- A store holding only the stale device. -/
def dbStale : DB :=
  { devices := [devStale], locations := [exLocDefault], sensorLogs := [],
    histories := [], lastSensor := none }

/-- C8, counterexample: sweeping at t = 600000 ms (device last seen 10
minutes earlier, timeout 5 minutes) flips DEV1 to DISCONNECTED and
emits exactly one event - a `device_status_changed` payload with reason
`timeout` that carries NO title and NO severity; no notification
envelope (the only event kind with a title such as
`Device DEV1 Disconnected` or a `medium` severity) is emitted. -/
theorem checkOfflineDevices_emits_no_titled_notification :
    (checkOfflineDevices 600000 dbStale).2
      = [Event.deviceStatusChanged
          { deviceCode := "DEV1", status := .DISCONNECTED,
            lastSeen := some 0, reason := "timeout" }] ∧
    (repoFindByCode (checkOfflineDevices 600000 dbStale).1 "DEV1").map Device.status
      = some .DISCONNECTED ∧
    (checkOfflineDevices 600000 dbStale).2.any Event.isNotificationEvent = false := by
  refine ⟨by decide, by decide, by decide⟩

/-- The sweep staleness test at time `now` with the monitoring
service's default 5-minute timeout. -/
def staleAt (now : ℤ) (d : Device) : Bool :=
  d.status == .CONNECTED &&
    (match d.lastSeen with
     | some t => decide (t < now - 5 * 60000)
     | none => true)

theorem bulkMark_filter_codes_eq_map (l : List Device) (p : Device → Bool)
    (huniq : (l.map Device.code).Nodup) :
    l.map (fun d =>
      if ((l.filter p).map Device.code).contains d.code
      then { d with status := DeviceStatus.DISCONNECTED } else d)
      = l.map (fun d =>
          if p d then { d with status := DeviceStatus.DISCONNECTED } else d) := by
  apply List.map_congr_left
  intro d hd
  by_cases hp : p d
  · rw [if_pos hp, if_pos]
    have : d.code ∈ (l.filter p).map Device.code :=
      List.mem_map.mpr ⟨d, List.mem_filter.mpr ⟨hd, hp⟩, rfl⟩
    exact List.elem_iff.mpr this
  · rw [if_neg hp, if_neg]
    intro hcontains
    have hmem : d.code ∈ (l.filter p).map Device.code := List.elem_iff.mp hcontains
    obtain ⟨d2, hd2mem, hd2code⟩ := List.mem_map.mp hmem
    obtain ⟨hd2l, hd2p⟩ := List.mem_filter.mp hd2mem
    have : d2 = d := List.inj_on_of_nodup_map huniq hd2l hd hd2code
    exact hp (this ▸ hd2p)

/-- C8, amended: each sweep tick marks as DISCONNECTED, in one bulk
update, precisely the CONNECTED devices whose `lastSeen` is older than
now minus the 5-minute timeout or null, and for every flipped device it
emits one `device_status_changed` event built by the same
`emitDeviceStatusChange` used by live heartbeats, carrying deviceCode,
status, lastSeen and reason `timeout` - but no title and no severity
(the titled `Device X Disconnected` medium-severity notification exists
only in the heartbeat handler's flip path). -/
theorem checkOfflineDevices_marks_and_emits (now : ℤ) (db : DB)
    (huniq : (db.devices.map Device.code).Nodup) :
    (checkOfflineDevices now db).1.devices
      = db.devices.map (fun d =>
          if staleAt now d then { d with status := .DISCONNECTED } else d) ∧
    (checkOfflineDevices now db).2
      = (db.devices.filter (staleAt now)).map
          (fun d => emitDeviceStatusChange { d with status := .DISCONNECTED } "timeout") ∧
    (checkOfflineDevices now db).2.all (fun e => !e.isNotificationEvent) = true := by
  have hfind : findPotentiallyOfflineDevices now 5 db = db.devices.filter (staleAt now) :=
    rfl
  refine ⟨?_, ?_, ?_⟩
  · show (serviceCheckAndUpdateOfflineDevices now 5 db).1.devices = _
    simp only [serviceCheckAndUpdateOfflineDevices, hfind]
    by_cases hempty : db.devices.filter (staleAt now) = []
    · rw [hempty]
      simp only [List.map_nil, List.length_nil, gt_iff_lt, lt_self_iff_false, if_false]
      have hnone : ∀ d ∈ db.devices, ¬ staleAt now d := by
        intro d hd hstale
        have : d ∈ db.devices.filter (staleAt now) :=
          List.mem_filter.mpr ⟨hd, hstale⟩
        simp [hempty] at this
      calc db.devices = db.devices.map id := by rw [List.map_id]
        _ = _ := by
          apply List.map_congr_left
          intro d hd
          rw [if_neg (by simpa using hnone d hd)]
          rfl
    · have hlen : (List.map (fun d => Device.code d)
          (List.filter (staleAt now) db.devices)).length > 0 := by
        rw [List.length_map]
        exact List.length_pos.mpr hempty
      rw [if_pos hlen]
      exact bulkMark_filter_codes_eq_map db.devices (staleAt now) huniq
  · rw [show (checkOfflineDevices now db).2
        = (findPotentiallyOfflineDevices now 5 db).map
            (fun d => emitDeviceStatusChange { d with status := .DISCONNECTED } "timeout")
      from rfl, hfind]
  · rw [show (checkOfflineDevices now db).2
        = (findPotentiallyOfflineDevices now 5 db).map
            (fun d => emitDeviceStatusChange { d with status := .DISCONNECTED } "timeout")
      from rfl]
    rw [List.all_eq_true]
    intro e he
    obtain ⟨d, _, hd⟩ := List.mem_map.mp he
    rw [← hd]
    rfl

theorem checkOfflineDevices_marks_and_emits_witness :
    (checkOfflineDevices 600000 dbStale).1.devices
      = dbStale.devices.map (fun d =>
          if staleAt 600000 d then { d with status := .DISCONNECTED } else d) ∧
    (checkOfflineDevices 600000 dbStale).2
      = (dbStale.devices.filter (staleAt 600000)).map
          (fun d => emitDeviceStatusChange { d with status := .DISCONNECTED } "timeout") :=
  ⟨(checkOfflineDevices_marks_and_emits 600000 dbStale (by decide)).1,
   (checkOfflineDevices_marks_and_emits 600000 dbStale (by decide)).2.1⟩

/-- Two readings of device D1, the earlier one inserted first. -/
def logT1 : SensorLog :=
  { id := 0, deviceCode := "D1", rainfall := none, waterLevel := some 10,
    timestamp := 1000 }

def logT2 : SensorLog :=
  { id := 1, deviceCode := "D1", rainfall := some 1, waterLevel := some 20,
    timestamp := 2000 }

/-- A store holding the two readings. -/
def dbLogs : DB :=
  { devices := [], locations := [], sensorLogs := [logT1, logT2],
    histories := [], lastSensor := none }

/-- C9, counterexample: the range query for a window containing both
readings returns them ordered DESCENDING by timestamp - the first
element of the result is the LATER reading, refuting the claimed
ascending order. -/
theorem findByDateRange_not_ascending :
    findByDateRange dbLogs "D1" (some 0) (some 0) = some [logT2, logT1] ∧
    logT1.timestamp < logT2.timestamp := by
  refine ⟨by decide, by decide⟩

/-- C9, amended: whenever at least one bound is given, the range query
returns exactly the device's readings whose timestamps fall in the
day-expanded window (`gte` start-of-day of the lower bound, `lte`
end-of-day of the upper bound), ordered DESCENDING by timestamp
(`orderBy: { timestamp: 'desc' }`), not ascending; with both bounds
absent it returns null. -/
theorem findByDateRange_returns_descending (db : DB) (deviceCode : String)
    (startDate endDate : Option ℤ) (hsome : startDate.isSome ∨ endDate.isSome) :
    ∃ r, findByDateRange db deviceCode startDate endDate = some r ∧
      List.Sorted tsDesc r ∧
      r.Perm (db.sensorLogs.filter (logMatches deviceCode startDate endDate)) := by
  rcases startDate with _ | s <;> rcases endDate with _ | e
  · simp at hsome
  all_goals
    exact ⟨_, rfl, List.sorted_insertionSort tsDesc _, List.perm_insertionSort tsDesc _⟩

theorem findByDateRange_returns_descending_witness :
    (Option.isSome (some (0 : ℤ)) ∨ Option.isSome (none : Option ℤ)) ∧
    (∃ r, findByDateRange dbLogs "D1" (some 0) none = some r ∧
      List.Sorted tsDesc r ∧
      r.Perm (dbLogs.sensorLogs.filter (logMatches "D1" (some 0) none))) :=
  ⟨Or.inl rfl,
   findByDateRange_returns_descending dbLogs "D1" (some 0) none (Or.inl rfl)⟩

/-- C10: the status summary's `connected`, `disconnected` and `total`
fields are the CONNECTED count, the DISCONNECTED count and the total
device count, while `active` is always the `undefined` read of a
missing fourth `Promise.all` element; and whenever a heartbeat flips a
device's connectivity status, the handler broadcasts exactly this
summary (computed on the post-heartbeat store, `active` included). -/
theorem getStatusSummary_active_undefined (db : DB) (now : ℤ) (topic : String)
    (p : PayloadData) (tdc : Option String) (res : HeartbeatResult)
    (hok : (handleHeartbeatMsg now db topic (some p) tdc).2.2 = .ok res)
    (hflip : res.statusChanged = true) :
    (repoGetStatusSummary db).connected
        = some (db.devices.filter (fun d => d.status == .CONNECTED)).length ∧
    (repoGetStatusSummary db).disconnected
        = some (db.devices.filter (fun d => d.status == .DISCONNECTED)).length ∧
    (repoGetStatusSummary db).total = some db.devices.length ∧
    (repoGetStatusSummary db).active = none ∧
    Event.deviceStatusSummary
        (repoGetStatusSummary (handleHeartbeatMsg now db topic (some p) tdc).1)
      ∈ (handleHeartbeatMsg now db topic (some p) tdc).2.1 := by
  refine ⟨rfl, rfl, rfl, rfl, ?_⟩
  rcases hc : jsStrOr tdc (jsStrOr p.deviceCode p.code) with _ | code
  · simp [handleHeartbeatMsg, hc] at hok
  · rcases hf : serviceFindByCode db code with e | deviceBefore
    · simp [handleHeartbeatMsg, hc, hf] at hok
    · rcases hm : monHandleHeartbeat now db code p.description with e | out
      · simp [handleHeartbeatMsg, hc, hf, hm] at hok
      · rcases out with ⟨db1, device, evs1⟩
        simp only [handleHeartbeatMsg, hc, hf, hm] at hok ⊢
        have hres : res =
            { device := device,
              statusChanged := deviceBefore.status != device.status,
              previousStatus := deviceBefore.status,
              newStatus := device.status } := by
          injection hok with h2
          rw [← h2]
        rw [hres] at hflip
        simp only at hflip
        simp [hflip]

/-- A registered but disconnected device. -/
def devD1Disc : Device :=
  { code := "D1", description := none, locationId := 10,
    status := .DISCONNECTED, lastSeen := none }

/-- A store holding the disconnected device and a location. -/
def dbD1 : DB :=
  { devices := [devD1Disc], locations := [exLocDefault], sensorLogs := [],
    histories := [], lastSensor := none }

/-- The heartbeat result of reviving `D1` at time 0. -/
def resD1 : HeartbeatResult :=
  { device := { code := "D1", description := none, locationId := 10,
                status := .CONNECTED, lastSeen := some 0 },
    statusChanged := true, previousStatus := .DISCONNECTED,
    newStatus := .CONNECTED }

theorem getStatusSummary_active_undefined_witness :
    (repoGetStatusSummary dbD1).active = none ∧
    Event.deviceStatusSummary
        (repoGetStatusSummary (handleHeartbeatMsg 0 dbD1
          "binatra-device/D1/heartbeat" (some emptyPayload) (some "D1")).1)
      ∈ (handleHeartbeatMsg 0 dbD1 "binatra-device/D1/heartbeat"
          (some emptyPayload) (some "D1")).2.1 := by
  have h := getStatusSummary_active_undefined dbD1 0 "binatra-device/D1/heartbeat"
    emptyPayload (some "D1") resD1 (by decide) (by decide)
  exact ⟨h.2.2.2.1, h.2.2.2.2⟩
